import Mathlib

/-!
Shallow embedding of the hierarchical content synchronization engine of
`src/roam_mcp/content.py` (functions `create_page`, `create_outline`,
`import_markdown`, `create_nested_blocks`, and the helper `flatten_content`).

Modelling conventions:
* Python dict items `{"text": ..., "level": ..., "heading_level": ..., "children": ...}`
  become the inductive `Item`; an absent `level` key is `Option.none`; an absent
  `heading_level` defaults to `0` exactly as `item.get("heading_level", 0)` does;
  `children` is an `ItemList` (a list of `Item`, encoded as a mutual inductive so
  that recursion over the tree is structural and computable).
* `str(uuid.uuid4())[:9]` is modelled by a supply `gen : Nat → String` consumed in
  call order (the n-th generated identifier is `gen n`).
* `execute_write_action` (the only write primitive, external module `roam_mcp.api`)
  is modelled by an oracle `Nat → Except String Resp` indexed by the call number:
  `Except.ok r` is a returned response dict, `Except.error e` is a raised exception.
  The response dict is `Resp`; `created_uids = none` models the key being absent
  (the source tests membership with `"created_uids" in result`).
* `find_or_create_page` is modelled by a total function `String → String`;
  page/parent/daily-page resolution, session setup, markdown parsing and
  `time.sleep` are external collaborators outside the engine.
* Each driver returns its Python result dict (`PyResult`, where a `none` field
  models an absent key) together with the list of store calls it issued
  (`Event`s, in order).  `logger` calls and the `page_url` string are dropped:
  they do not touch the store or the result semantics the claims speak about.
-/

namespace Roam

mutual

inductive Item where
  | mk (text : String) (level : Option Int) (heading : Int) (children : ItemList)
deriving Repr

inductive ItemList where
  | nil
  | cons (head : Item) (tail : ItemList)
deriving Repr

end

def Item.text : Item → String
  | .mk t _ _ _ => t

def Item.level : Item → Option Int
  | .mk _ l _ _ => l

def Item.heading : Item → Int
  | .mk _ _ h _ => h

def Item.children : Item → ItemList
  | .mk _ _ _ c => c

def ItemList.isEmpty : ItemList → Bool
  | .nil => true
  | .cons _ _ => false

/-- A flattened node descriptor, as appended by `flatten_content`
(`content.py` lines 101-105): text, resolved level, heading level. -/
structure LinearNode where
  text : String
  level : Int
  heading : Int
deriving DecidableEq, Repr

/-- One `create-block` action dict (`content.py` lines 147-160 and analogues):
target parent uid, order hint, block string, client-generated uid, and the
optional `heading` key (set only when `0 < heading_level <= 3`). -/
structure Action where
  parent : String
  order : String
  text : String
  uid : String
  heading : Option Int
deriving DecidableEq, Repr

/-- The store response dict returned by `execute_write_action`.
`created_uids = none` models the `"created_uids"` key being absent. -/
structure Resp where
  success : Bool
  created_uids : Option (List String) := none
deriving DecidableEq, Repr

/-- A store call issued by a driver: the page find-or-create lookup, or one
`execute_write_action` call carrying its batch of actions. -/
inductive Event where
  | page (title : String)
  | write (batch : List Action)
deriving DecidableEq, Repr

/-- The Python result dict of a driver. A `none` field models an absent key. -/
structure PyResult where
  success : Bool
  error : Option String := none
  uid : Option String := none
  created_uids : Option (List String) := none
  page_uid : Option String := none
  parent_uid : Option String := none
deriving DecidableEq, Repr

/-- Mutable state threaded through a level-by-level driver loop: the uuid
counter, the `execute_write_action` call counter, the issued store calls, the
accumulated `created_uids` list, and the `level_parent_map` dict (an
association list where an update prepends, so lookup finds the newest entry,
matching Python dict overwrite semantics). -/
structure St where
  ctr : Nat
  calls : Nat
  events : List Event
  created : List String
  pmap : List (Int × String)
deriving DecidableEq, Repr

/-- `parent_level = level - 1; if parent_level < -1: parent_level = -1`
(`content.py` lines 136-138, 279-281, 714-716, 1087-1089). -/
def clampParentLevel (pl : Int) : Int :=
  if pl < -1 then -1 else pl

/-- The `write` events of a trace, i.e. the batches handed to
`execute_write_action`, in call order. -/
def writesOf (evs : List Event) : List (List Action) :=
  evs.filterMap fun e =>
    match e with
    | .write b => some b
    | _ => none

mutual

/-- The per-item body of `flatten_content` (`content.py` lines 96-109): resolve
the level (`parent_level + 1` when no explicit level), append one descriptor to
the accumulator list `flattened_content` (modelled by explicit accumulator
passing), and recurse into non-empty `children` passing the resolved level. -/
def flatten_item : Item → Int → List LinearNode → List LinearNode
  | .mk t lvl h cs, parentLevel, acc =>
    let level := lvl.getD (parentLevel + 1)
    let acc1 := acc ++ [⟨t, level, h⟩]
    if cs.isEmpty then acc1 else flatten_content cs level acc1

/-- `flatten_content` (`content.py` lines 95-111): pre-order walk over the item
list, one `flatten_item` per item. -/
def flatten_content : ItemList → Int → List LinearNode → List LinearNode
  | .nil, _, acc => acc
  | .cons i rest, parentLevel, acc =>
    flatten_content rest parentLevel (flatten_item i parentLevel acc)

end

mutual

/-- `validate_item` (`content.py` lines 66-82).  In this typed embedding the
`isinstance` checks on `text` (string), `level` (int) and `children` (list)
always hold, so the only reachable rejection is a negative level; the first
error found is returned, depth-first, exactly as the Python early returns do. -/
def validate_item : Item → Int → Option String
  | .mk _ lvl _ cs, parentLevel =>
    let level := lvl.getD (parentLevel + 1)
    if level < 0 then some "level must be non-negative"
    else validate_children cs level

def validate_children : ItemList → Int → Option String
  | .nil, _ => none
  | .cons c rest, level =>
    match validate_item c level with
    | some e => some e
    | none => validate_children rest level

end

/-- The validation loop of `create_page` (`content.py` lines 84-87):
`validate_item(item, -1)` for each top item, first error wins. -/
def validate_content : ItemList → Option String
  | .nil => none
  | .cons i rest =>
    match validate_item i (-1) with
    | some e => some e
    | none => validate_content rest

/-- Insert a node after every node of lower-or-equal level: building block of
the stable (Python `list.sort`) sort by level used at `content.py` line 114. -/
def insertByLevel (x : LinearNode) : List LinearNode → List LinearNode
  | [] => [x]
  | y :: ys => if y.level ≤ x.level then y :: insertByLevel x ys else x :: y :: ys

/-- `flattened_content.sort(key=lambda x: x.get("level", 0))`: a stable sort by
level (equal levels keep emission order, as Python sort is stable). -/
def sortByLevel (l : List LinearNode) : List LinearNode :=
  l.foldl (fun acc x => insertByLevel x acc) []

def insertInt (x : Int) : List Int → List Int
  | [] => [x]
  | y :: ys => if y ≤ x then y :: insertInt x ys else x :: y :: ys

/-- `sorted(...)` on a list of ints (used on the grouping dict keys). -/
def sortInts : List Int → List Int
  | [] => []
  | a :: rest => insertInt a (sortInts rest)

/-- The ascending key list of the level-grouping dict (`sorted(level_items.keys())`):
the distinct levels of the flattened sequence, ascending. -/
def levelKeys (flat : List LinearNode) : List Int :=
  sortInts ((flat.map (·.level)).dedup)

/-- The depth bucket for one level: grouping a list into a dict of per-key
lists (`content.py` lines 117-122) yields, for each key, exactly the
subsequence of elements with that key in encounter order, i.e. `List.filter`. -/
def levelBucket (flat : List LinearNode) (level : Int) : List LinearNode :=
  flat.filter (fun x => x.level == level)

/-- Result of building the actions of one depth bucket: the `batch_actions`
list, the `level_uids` list, and the advanced uuid counter. -/
structure BatchOut where
  batch : List Action
  uids : List String
  ctr : Nat
deriving DecidableEq, Repr

/-- The reconciliation rule applied to every batch response
(`content.py` lines 168-172, 311-315, 535-539, 750-754): adopt the store
`created_uids` when the response carries that key; otherwise fall back to the
locally generated `level_uids` when the response signals `success`; otherwise
contribute nothing. -/
def reconcile (resp : Resp) (levelUids : List String) : List String :=
  match resp.created_uids with
  | some us => us
  | none => if resp.success then levelUids else []

/-- The per-item half of one level iteration of `create_page`
(`content.py` lines 131-162): resolve the parent from `level_parent_map`
(falling back to the page uid), draw a fresh uid, and build the
`create-block` action. -/
def build_level_actions (gen : Nat → String) (pageUid : String)
    (pmap : List (Int × String)) (level : Int) :
    List LinearNode → Nat → BatchOut
  | [], ctr => ⟨[], [], ctr⟩
  | nd :: rest, ctr =>
    let parentLevel := clampParentLevel (level - 1)
    let parent := (List.lookup parentLevel pmap).getD pageUid
    let uid := gen ctr
    let act : Action :=
      { parent := parent, order := "last", text := nd.text, uid := uid,
        heading := if 0 < nd.heading ∧ nd.heading ≤ 3 then some nd.heading else none }
    let o := build_level_actions gen pageUid pmap level rest (ctr + 1)
    ⟨act :: o.batch, uid :: o.uids, o.ctr⟩

/-- One level iteration of `create_page` (`content.py` lines 127-179): build
the batch, and if it is non-empty submit it (`execute_write_action`), extend
`created_uids` from the response (store uids if the key is present, else the
local uids if `success`), store the last local uid as the parent entry for
this level, all inside the `if batch_actions:` block.  A raised exception is
returned as `some e` with the state as mutated so far. -/
def process_level (gen : Nat → String) (oracle : Nat → Except String Resp)
    (pageUid : String) (level : Int) (bucket : List LinearNode) (st : St) :
    St × Option String :=
  let o := build_level_actions gen pageUid st.pmap level bucket st.ctr
  if o.batch.isEmpty then ({ st with ctr := o.ctr }, none)
  else
    let r := oracle st.calls
    let st1 : St :=
      { st with
        ctr := o.ctr
        calls := st.calls + 1
        events := st.events ++ [.write o.batch] }
    match r with
    | .error e => (st1, some e)
    | .ok resp =>
      let pmap' := if o.uids.isEmpty then st1.pmap else (level, o.uids.getLastD "") :: st1.pmap
      ({ st1 with created := st1.created ++ reconcile resp o.uids, pmap := pmap' }, none)

/-- The `for level in sorted(level_items.keys())` loop of `create_page`
(`content.py` lines 127-179).  A raised exception aborts the remaining levels
immediately; a failure response does not (the source has no such check). -/
def process_levels (gen : Nat → String) (oracle : Nat → Except String Resp)
    (pageUid : String) (flat : List LinearNode) :
    List Int → St → St × Option String
  | [], st => (st, none)
  | l :: ls, st =>
    match process_level gen oracle pageUid l (levelBucket flat l) st with
    | (st', some e) => (st', some e)
    | (st', none) => process_levels gen oracle pageUid flat ls st'

/-- `create_page` (`content.py` lines 40-207).  The page is found-or-created
first (a store call, `Event.page`), then empty content short-circuits, then
the content is validated, flattened, stably sorted by level, grouped, and
processed level by level.  A raised exception reaches the `except` handlers,
which return `success: False` with the message only — no `created_uids` key
(lines 193-207). -/
def create_page (gen : Nat → String) (oracle : Nat → Except String Resp)
    (findOrCreatePage : String → String) (title : String) (content : ItemList) :
    PyResult × List Event :=
  if title = "" then ({ success := false, error := some "Title is required" }, [])
  else
    let pageUid := findOrCreatePage title
    let ev0 : List Event := [.page title]
    if content.isEmpty then
      ({ success := true, uid := some pageUid }, ev0)
    else
      match validate_content content with
      | some e =>
        ({ success := false, error := some ("Invalid content structure - " ++ e) }, ev0)
      | none =>
        let flat := sortByLevel (flatten_content content (-1) [])
        let st0 : St := { ctr := 0, calls := 0, events := ev0, created := [],
                          pmap := [(-1, pageUid)] }
        match process_levels gen oracle pageUid flat (levelKeys flat) st0 with
        | (st, some e) => ({ success := false, error := some e }, st.events)
        | (st, none) =>
          ({ success := true, uid := some pageUid, created_uids := some st.created },
           st.events)

/-- The per-item parent resolution of `create_outline` (`content.py` lines
499-510): depth 0 items attach to the root parent; deeper items consult
`current_level_parents[level - 1]` only when the grouping dict has a bucket at
`level - 1` (`parent_index >= 0`) and the table has an entry there; otherwise
they fall back to the root parent directly — there is no walk to a lower
depth. -/
def outline_parent (parentUid : String) (outline : List Item)
    (pmap : List (Int × String)) (level : Int) : String :=
  let parentLevel := level - 1
  if parentLevel < 0 then parentUid
  else
    let parentBucket := outline.filter (fun i => i.level.getD 0 == parentLevel)
    match List.lookup parentLevel pmap with
    | some p => if 1 ≤ parentBucket.length then p else parentUid
    | none => parentUid

/-- The per-item half of one level iteration of `create_outline`
(`content.py` lines 499-529): resolve the parent via `outline_parent`, draw a
fresh uid, and build the `create-block` action (no heading key in this entry
point). -/
def build_outline_actions (gen : Nat → String) (parentUid : String)
    (outline : List Item) (pmap : List (Int × String)) (level : Int) :
    List Item → Nat → BatchOut
  | [], ctr => ⟨[], [], ctr⟩
  | it :: rest, ctr =>
    let parent := outline_parent parentUid outline pmap level
    let uid := gen ctr
    let act : Action :=
      { parent := parent, order := "last", text := it.text, uid := uid,
        heading := none }
    let o := build_outline_actions gen parentUid outline pmap level rest (ctr + 1)
    ⟨act :: o.batch, uid :: o.uids, o.ctr⟩

/-- One level iteration of `create_outline` (`content.py` lines 495-546): same
post-batch handling as `create_page` (extend `created_uids` from the response,
store the last local uid as the parent entry, inside `if level_batch:`). -/
def outline_process_level (gen : Nat → String) (oracle : Nat → Except String Resp)
    (parentUid : String) (outline : List Item) (level : Int) (st : St) :
    St × Option String :=
  let bucket := outline.filter (fun i => i.level.getD 0 == level)
  let o := build_outline_actions gen parentUid outline st.pmap level bucket st.ctr
  if o.batch.isEmpty then ({ st with ctr := o.ctr }, none)
  else
    let r := oracle st.calls
    let st1 : St :=
      { st with
        ctr := o.ctr
        calls := st.calls + 1
        events := st.events ++ [.write o.batch] }
    match r with
    | .error e => (st1, some e)
    | .ok resp =>
      let pmap' := if o.uids.isEmpty then st1.pmap else (level, o.uids.getLastD "") :: st1.pmap
      ({ st1 with created := st1.created ++ reconcile resp o.uids, pmap := pmap' }, none)

/-- The `for level in sorted(level_items.keys())` loop of `create_outline`. -/
def outline_process_levels (gen : Nat → String) (oracle : Nat → Except String Resp)
    (parentUid : String) (outline : List Item) :
    List Int → St → St × Option String
  | [], st => (st, none)
  | l :: ls, st =>
    match outline_process_level gen oracle parentUid outline l st with
    | (st', some e) => (st', some e)
    | (st', none) => outline_process_levels gen oracle parentUid outline ls st'

/-- `create_outline` (`content.py` lines 389-578), modelled from the point
where the target page and the parent block are resolved (the resolution, lines
416-479, is an external collaboration supplied here as `targetPageUid` and
`parentUid`).  The two validation checks (empty outline; an item with falsy
text or a non-int level) are performed before any store activity, lines
401-414.  The outline is grouped by `item["level"]` without flattening or
sorting the item list; children are never read by this entry point.
Exceptions reach handlers that return only `success`/`error`
(lines 554-578). -/
def create_outline (gen : Nat → String) (oracle : Nat → Except String Resp)
    (targetPageUid parentUid : String) (outline : List Item) :
    PyResult × List Event :=
  if outline.isEmpty then
    ({ success := false, error := some "Outline cannot be empty" }, [])
  else if outline.any (fun i => i.text == "" || i.level.isNone) then
    ({ success := false, error := some "All outline items must have text and a valid level" }, [])
  else
    let levels := sortInts ((outline.map (fun i => i.level.getD 0)).dedup)
    let st0 : St := { ctr := 0, calls := 0, events := [], created := [],
                      pmap := [(-1, parentUid)] }
    match outline_process_levels gen oracle parentUid outline levels st0 with
    | (st, some e) => ({ success := false, error := some e }, st.events)
    | (st, none) =>
      ({ success := true, page_uid := some targetPageUid,
         parent_uid := some parentUid, created_uids := some st.created },
       st.events)

/-- Result of building the actions of one `import_markdown` depth bucket: the
batch, the `level_uids`, the advanced uuid counter, and the (conditionally
updated) `level_parent_map`. -/
structure ImportBatchOut where
  batch : List Action
  uids : List String
  ctr : Nat
  pmap : List (Int × String)
deriving DecidableEq, Repr

/-- The per-item half of one level iteration of `import_markdown`
(`content.py` lines 709-744): resolve the parent from `level_parent_map`
(falling back to the resolved parent block), draw a fresh uid, build the
action (the caller-supplied `order` is used for level 0, `"last"` otherwise),
and then run the conditional table update of lines 742-744: the entry for
`level` is overwritten with this item uid only when `level` is already a key
of the map (which initially holds only the sentinel `-1`). -/
def import_build_actions (gen : Nat → String) (parentBlockUid : String)
    (order : String) (level : Int) :
    List LinearNode → Nat → List (Int × String) → ImportBatchOut
  | [], ctr, pmap => ⟨[], [], ctr, pmap⟩
  | nd :: rest, ctr, pmap =>
    let parentLevel := clampParentLevel (level - 1)
    let parent := (List.lookup parentLevel pmap).getD parentBlockUid
    let uid := gen ctr
    let act : Action :=
      { parent := parent, order := if level == 0 then order else "last",
        text := nd.text, uid := uid,
        heading := if 0 < nd.heading ∧ nd.heading ≤ 3 then some nd.heading else none }
    let pmap1 := if (List.lookup level pmap).isSome then (level, uid) :: pmap else pmap
    let o := import_build_actions gen parentBlockUid order level rest (ctr + 1) pmap1
    ⟨act :: o.batch, uid :: o.uids, o.ctr, o.pmap⟩

/-- One level iteration of `import_markdown` (`content.py` lines 705-757):
build the batch (mutating the table via the conditional update above), submit
it, extend `created_uids` from the response.  Unlike `create_page` and
`create_outline` there is no post-batch table update. -/
def import_process_level (gen : Nat → String) (oracle : Nat → Except String Resp)
    (parentBlockUid : String) (order : String) (level : Int)
    (bucket : List LinearNode) (st : St) : St × Option String :=
  let o := import_build_actions gen parentBlockUid order level bucket st.ctr st.pmap
  let st0 : St := { st with ctr := o.ctr, pmap := o.pmap }
  if o.batch.isEmpty then (st0, none)
  else
    let r := oracle st0.calls
    let st1 : St :=
      { st0 with
        calls := st0.calls + 1
        events := st0.events ++ [.write o.batch] }
    match r with
    | .error e => (st1, some e)
    | .ok resp =>
      ({ st1 with created := st1.created ++ reconcile resp o.uids }, none)

/-- The `for level in sorted(level_items.keys())` loop of `import_markdown`. -/
def import_process_levels (gen : Nat → String) (oracle : Nat → Except String Resp)
    (parentBlockUid : String) (order : String) (flat : List LinearNode) :
    List Int → St → St × Option String
  | [], st => (st, none)
  | l :: ls, st =>
    match import_process_level gen oracle parentBlockUid order l (levelBucket flat l) st with
    | (st', some e) => (st', some e)
    | (st', none) => import_process_levels gen oracle parentBlockUid order flat ls st'

/-- `import_markdown` (`content.py` lines 581-790), modelled from the point
where the target page and the parent block are resolved and the markdown is
parsed (lines 610-680 — these are external collaborators, supplied here as
`targetPageUid`, `parentBlockUid` and the parsed `LinearNode` list).  An empty
parse result is rejected (lines 682-686); otherwise the items are stably
sorted by level, grouped, and processed level by level.  Exceptions reach
handlers that return only `success`/`error` (lines 765-790). -/
def import_markdown (gen : Nat → String) (oracle : Nat → Except String Resp)
    (targetPageUid parentBlockUid : String) (order : String)
    (parsed : List LinearNode) : PyResult × List Event :=
  if parsed.isEmpty then
    ({ success := false, error := some "Failed to parse markdown content" }, [])
  else
    let flat := sortByLevel parsed
    let st0 : St := { ctr := 0, calls := 0, events := [], created := [],
                      pmap := [(-1, parentBlockUid)] }
    match import_process_levels gen oracle parentBlockUid order flat (levelKeys flat) st0 with
    | (st, some e) => ({ success := false, error := some e }, st.events)
    | (st, none) =>
      ({ success := true, page_uid := some targetPageUid,
         parent_uid := some parentBlockUid, created_uids := some st.created },
       st.events)

/-- Global effects of `create_nested_blocks` shared across its recursive
invocations: the uuid counter, the `execute_write_action` call counter and the
issued store calls (in Python these are process-global, while `created_uids`
and `level_to_uid` are local to each invocation). -/
structure GSt where
  ctr : Nat
  calls : Nat
  events : List Event
deriving DecidableEq, Repr

/-- Outcome of the block loop of one `create_nested_blocks` invocation: the
local `created_uids`, the local `level_to_uid` table, the global state, and
`exn = some e` when `execute_write_action` raised at this invocation level
(aborting the loop; the exception of a recursive child invocation is caught by
the child itself and never reaches its parent). -/
structure CnbOut where
  created : List String
  pmap : List (Int × String)
  gst : GSt
  exn : Option String
deriving DecidableEq, Repr

mutual

/-- One iteration of the block loop of `create_nested_blocks` (`content.py`
lines 1081-1131): resolve the parent from `level_to_uid` (default level 0,
clamped parent level, fallback to the invocation root), draw a fresh uid,
submit a single-action `execute_write_action` call.  On a success response the
uid is recorded, the table entry for the level is overwritten, and a non-empty
`children` list is handed to a recursive `create_nested_blocks` invocation
(fresh table seeded with this uid at the sentinel depth; its own `try` block,
inlined here: an exception inside it surfaces as a failed child result whose
partial uids are then dropped with only a warning, lines 1122-1126).  On a
failure response the block is only logged and skipped — children included —
and the loop continues (lines 1130-1131). -/
def cnb_block (gen : Nat → String) (oracle : Nat → Except String Resp) :
    Item → String → List String → List (Int × String) → GSt → CnbOut
  | .mk t lvl h cs, parentUid, created, pmap, st =>
    let level := lvl.getD 0
    let parentLevel := clampParentLevel (level - 1)
    let parent := (List.lookup parentLevel pmap).getD parentUid
    let uid := gen st.ctr
    let act : Action :=
      { parent := parent, order := "last", text := t, uid := uid,
        heading := if 0 < h ∧ h ≤ 3 then some h else none }
    let idx := st.calls
    let st1 : GSt :=
      { st with
        ctr := st.ctr + 1
        calls := st.calls + 1
        events := st.events ++ [.write [act]] }
    match oracle idx with
    | .error e => ⟨created, pmap, st1, some e⟩
    | .ok resp =>
      if resp.success then
        let created1 := created ++ [uid]
        let pmap1 := (level, uid) :: pmap
        if cs.isEmpty then ⟨created1, pmap1, st1, none⟩
        else
          let child := cnb_list gen oracle cs uid [] [(-1, uid)] st1
          ⟨(if child.exn.isNone then created1 ++ child.created else created1),
           pmap1, child.gst, none⟩
      else ⟨created, pmap, st1, none⟩

/-- The `for block in blocks_data:` loop of one `create_nested_blocks`
invocation (`content.py` lines 1080-1131): an exception raised while
processing a block aborts the loop at this level. -/
def cnb_list (gen : Nat → String) (oracle : Nat → Except String Resp) :
    ItemList → String → List String → List (Int × String) → GSt → CnbOut
  | .nil, _, created, pmap, st => ⟨created, pmap, st, none⟩
  | .cons b rest, parentUid, created, pmap, st =>
    match cnb_block gen oracle b parentUid created pmap st with
    | ⟨created', pmap', st', some e⟩ => ⟨created', pmap', st', some e⟩
    | ⟨created', pmap', st', none⟩ =>
      cnb_list gen oracle rest parentUid created' pmap' st'

end

/-- `create_nested_blocks` (`content.py` lines 1057-1144): empty input is a
no-op success with an empty uid list and no store calls (lines 1068-1072);
otherwise the block loop runs under a `try` whose handler returns
`success: False` with the error message and the uids created so far at this
invocation level (lines 1137-1144); a clean loop returns `success: True` with
the accumulated uids (lines 1133-1136). -/
def create_nested_blocks (gen : Nat → String) (oracle : Nat → Except String Resp)
    (parentUid : String) (blocks : ItemList) (st : GSt) : PyResult × GSt :=
  if blocks.isEmpty then ({ success := true, created_uids := some [] }, st)
  else
    match cnb_list gen oracle blocks parentUid [] [(-1, parentUid)] st with
    | ⟨created, _, st', none⟩ =>
      ({ success := true, created_uids := some created }, st')
    | ⟨created, _, st', some e⟩ =>
      ({ success := false, error := some ("Failed to create nested blocks: " ++ e),
         created_uids := some created }, st')

/-! ### Concrete fixtures used by witnesses and counterexamples -/

/-- A deterministic uid supply standing in for `str(uuid.uuid4())[:9]`. -/
def gen0 : Nat → String := fun n => "u" ++ toString n

/-- A store that answers every batch with a bare success response. -/
def oracleOk : Nat → Except String Resp := fun _ => .ok { success := true }

/-- A store whose second call (index 1) returns a failure response. -/
def oracleFailAt1 : Nat → Except String Resp := fun i =>
  if i == 1 then .ok { success := false } else .ok { success := true }

/-- A store whose first call (index 0) returns a failure response. -/
def oracleFailAt0 : Nat → Except String Resp := fun i =>
  if i == 0 then .ok { success := false } else .ok { success := true }

/-- A store whose second call (index 1) raises an exception. -/
def oracleRaiseAt1 : Nat → Except String Resp := fun i =>
  if i == 1 then .error "Transaction failed" else .ok { success := true }

/-- A store whose first call returns its own identifiers `a1`, `a2`. -/
def oracleStoreUids : Nat → Except String Resp := fun i =>
  if i == 0 then .ok { success := true, created_uids := some ["a1", "a2"] }
  else .ok { success := true }

/-- The outline of the end-to-end scenario: A at depth 0, B and C at depth 1,
D at depth 2, no nested children. -/
def contentABCD : ItemList :=
  .cons (.mk "A" (some 0) 0 .nil)
    (.cons (.mk "B" (some 1) 0 .nil)
      (.cons (.mk "C" (some 1) 0 .nil)
        (.cons (.mk "D" (some 2) 0 .nil) .nil)))

/-- The same scenario as a parsed `LinearNode` list (the form
`import_markdown` receives from `parse_markdown_list`). -/
def parsedABCD : List LinearNode :=
  [⟨"A", 0, 0⟩, ⟨"B", 1, 0⟩, ⟨"C", 1, 0⟩, ⟨"D", 2, 0⟩]

/-- Three levels: A at depth 0, B at depth 1, D at depth 2. -/
def contentABD : ItemList :=
  .cons (.mk "A" (some 0) 0 .nil)
    (.cons (.mk "B" (some 1) 0 .nil)
      (.cons (.mk "D" (some 2) 0 .nil) .nil))

/-- A depth gap: A at depth 0, C at depth 2, nothing at depth 1. -/
def contentGap : ItemList :=
  .cons (.mk "A" (some 0) 0 .nil)
    (.cons (.mk "C" (some 2) 0 .nil) .nil)

/-- A single item whose text is the empty string. -/
def contentEmptyText : ItemList :=
  .cons (.mk "" (some 0) 0 .nil) .nil

/-- An item with a negative explicit level. -/
def contentNegLevel : ItemList :=
  .cons (.mk "A" (some (-1)) 0 .nil) .nil

/-- Two levels: A at depth 0, B at depth 1. -/
def contentAB : ItemList :=
  .cons (.mk "A" (some 0) 0 .nil)
    (.cons (.mk "B" (some 1) 0 .nil) .nil)

/-- Two nodes at depth 0 followed by one at depth 1. -/
def contentABC : ItemList :=
  .cons (.mk "A" (some 0) 0 .nil)
    (.cons (.mk "B" (some 0) 0 .nil)
      (.cons (.mk "C" (some 1) 0 .nil) .nil))

/-- Nested blocks: X at level 0 with child Y, then sibling Z at level 0. -/
def blocksXYZ : ItemList :=
  .cons (.mk "X" (some 0) 0 (.cons (.mk "Y" none 0 .nil) .nil))
    (.cons (.mk "Z" (some 0) 0 .nil) .nil)

/-! ### Purity of the flattener -/

mutual

/-- Accumulator lemma for `flatten_item`: the emitted suffix is a pure
function of the item and the parent level. -/
theorem flatten_item_acc : ∀ (i : Item) (p : Int) (acc : List LinearNode),
    flatten_item i p acc = acc ++ flatten_item i p []
  | .mk t lvl h cs, p, acc => by
    cases hcs : cs.isEmpty with
    | true => simp [flatten_item, hcs]
    | false =>
      simp only [flatten_item, hcs, Bool.false_eq_true, if_false, List.nil_append]
      have h1 := flatten_content_acc cs (lvl.getD (p + 1)) (acc ++ [⟨t, lvl.getD (p + 1), h⟩])
      have h2 := flatten_content_acc cs (lvl.getD (p + 1)) [⟨t, lvl.getD (p + 1), h⟩]
      rw [h1, h2]
      simp

/-- Accumulator lemma for `flatten_content`: the emitted suffix is a pure
function of the item list and the parent level. -/
theorem flatten_content_acc : ∀ (l : ItemList) (p : Int) (acc : List LinearNode),
    flatten_content l p acc = acc ++ flatten_content l p []
  | .nil, _, acc => by simp [flatten_content]
  | .cons i rest, p, acc => by
    simp only [flatten_content]
    have h1 := flatten_content_acc rest p (flatten_item i p acc)
    have h2 := flatten_content_acc rest p (flatten_item i p [])
    have h3 := flatten_item_acc i p acc
    rw [h1, h2, h3]
    simp

end

/-! ### Support lemmas -/

theorem mem_insertInt {x a : Int} : ∀ {l : List Int}, x ∈ insertInt a l ↔ x = a ∨ x ∈ l
  | [] => by simp [insertInt]
  | y :: ys => by
    simp only [insertInt]
    split
    · simp only [List.mem_cons, mem_insertInt (l := ys)]
      tauto
    · simp only [List.mem_cons]

theorem mem_sortInts {x : Int} : ∀ {l : List Int}, x ∈ sortInts l ↔ x ∈ l
  | [] => by simp [sortInts]
  | a :: rest => by
    simp [sortInts, mem_insertInt, mem_sortInts (l := rest)]

/-- Every key of the level-grouping dict owns a non-empty bucket. -/
theorem levelKeys_bucket_ne_nil (flat : List LinearNode) :
    ∀ l ∈ levelKeys flat, levelBucket flat l ≠ [] := by
  intro l hl
  have h1 : l ∈ (flat.map (·.level)).dedup := mem_sortInts.mp hl
  have h2 : l ∈ flat.map (·.level) := List.mem_dedup.mp h1
  obtain ⟨nd, hnd, hlev⟩ := List.mem_map.mp h2
  have : nd ∈ levelBucket flat l := List.mem_filter.mpr ⟨hnd, by simp [hlev]⟩
  exact List.ne_nil_of_mem this

theorem writesOf_append_write (evs : List Event) (b : List Action) :
    writesOf (evs ++ [Event.write b]) = writesOf evs ++ [b] := by
  simp [writesOf, List.filterMap_append]

theorem build_level_actions_batch_cons (gen : Nat → String) (pageUid : String)
    (pmap : List (Int × String)) (level : Int) (nd : LinearNode)
    (rest : List LinearNode) (ctr : Nat) :
    (build_level_actions gen pageUid pmap level (nd :: rest) ctr).batch =
      { parent := (List.lookup (clampParentLevel (level - 1)) pmap).getD pageUid,
        order := "last", text := nd.text, uid := gen ctr,
        heading := if 0 < nd.heading ∧ nd.heading ≤ 3 then some nd.heading else none } ::
      (build_level_actions gen pageUid pmap level rest (ctr + 1)).batch := rfl

theorem build_level_actions_uids_cons (gen : Nat → String) (pageUid : String)
    (pmap : List (Int × String)) (level : Int) (nd : LinearNode)
    (rest : List LinearNode) (ctr : Nat) :
    (build_level_actions gen pageUid pmap level (nd :: rest) ctr).uids =
      gen ctr :: (build_level_actions gen pageUid pmap level rest (ctr + 1)).uids := rfl

theorem build_level_actions_batch_isEmpty (gen : Nat → String) (pageUid : String)
    (pmap : List (Int × String)) (level : Int) (bucket : List LinearNode) (ctr : Nat)
    (hne : bucket ≠ []) :
    (build_level_actions gen pageUid pmap level bucket ctr).batch.isEmpty = false := by
  cases bucket with
  | nil => exact absurd rfl hne
  | cons nd rest => simp [build_level_actions]

theorem build_level_actions_uids_ne_nil (gen : Nat → String) (pageUid : String)
    (pmap : List (Int × String)) (level : Int) (bucket : List LinearNode) (ctr : Nat)
    (hne : bucket ≠ []) :
    (build_level_actions gen pageUid pmap level bucket ctr).uids ≠ [] := by
  cases bucket with
  | nil => exact absurd rfl hne
  | cons nd rest => simp [build_level_actions]

theorem build_level_actions_uids_isEmpty (gen : Nat → String) (pageUid : String)
    (pmap : List (Int × String)) (level : Int) (bucket : List LinearNode) (ctr : Nat)
    (hne : bucket ≠ []) :
    (build_level_actions gen pageUid pmap level bucket ctr).uids.isEmpty = false := by
  cases bucket with
  | nil => exact absurd rfl hne
  | cons nd rest => simp [build_level_actions]

/-- The last locally generated uid of a non-empty bucket is the one drawn for
its last node: `gen (ctr + (bucket.length - 1))`. -/
theorem build_level_actions_uids_getLastD (gen : Nat → String) (pageUid : String)
    (pmap : List (Int × String)) (level : Int) :
    ∀ (bucket : List LinearNode) (ctr : Nat), bucket ≠ [] →
      (build_level_actions gen pageUid pmap level bucket ctr).uids.getLastD "" =
        gen (ctr + (bucket.length - 1)) := by
  intro bucket
  induction bucket with
  | nil => intro ctr h; exact absurd rfl h
  | cons nd rest ih =>
    intro ctr _
    cases rest with
    | nil => simp [build_level_actions]
    | cons nd2 rest2 =>
      have hne2 : (nd2 :: rest2 : List LinearNode) ≠ [] := by simp
      have ih' := ih (ctr + 1) hne2
      have huids := build_level_actions_uids_ne_nil gen pageUid pmap level (nd2 :: rest2) (ctr + 1) hne2
      obtain ⟨x, hx⟩ := Option.isSome_iff_exists.mp (List.getLast?_isSome.mpr huids)
      rw [build_level_actions_uids_cons, List.getLastD_cons]
      rw [List.getLastD_eq_getLast? _ _, hx]
      rw [List.getLastD_eq_getLast? _ _, hx] at ih'
      simp only [Option.getD_some] at ih' ⊢
      rw [ih']
      congr 1
      simp only [List.length_cons]
      omega

/-- Full specification of one `create_page`-shaped level iteration on a
non-empty bucket whose store call returns a response `r` (does not raise):
the call counter advances, the batch is recorded, `created_uids` is extended
by the reconciliation rule, and the parent table entry for this level becomes
the last locally generated uid — all regardless of `r.success`. -/
theorem process_level_spec (gen : Nat → String) (oracle : Nat → Except String Resp)
    (pageUid : String) (level : Int) (bucket : List LinearNode) (st : St) (r : Resp)
    (hne : bucket ≠ []) (hr : oracle st.calls = Except.ok r) :
    process_level gen oracle pageUid level bucket st =
      ({ ctr := (build_level_actions gen pageUid st.pmap level bucket st.ctr).ctr,
         calls := st.calls + 1,
         events := st.events ++
           [.write (build_level_actions gen pageUid st.pmap level bucket st.ctr).batch],
         created := st.created ++
           reconcile r (build_level_actions gen pageUid st.pmap level bucket st.ctr).uids,
         pmap := (level,
             (build_level_actions gen pageUid st.pmap level bucket st.ctr).uids.getLastD "") ::
           st.pmap }, none) := by
  have hb := build_level_actions_batch_isEmpty gen pageUid st.pmap level bucket st.ctr hne
  have hu := build_level_actions_uids_isEmpty gen pageUid st.pmap level bucket st.ctr hne
  simp [process_level, hb, hu, hr]

/-- On a store that never raises, the level loop completes every level and
issues exactly one write call per level (responses signalling failure do not
stop it). -/
theorem process_levels_ok (gen : Nat → String) (oracle : Nat → Except String Resp)
    (pageUid : String) (flat : List LinearNode)
    (hok : ∀ i, ∃ r, oracle i = Except.ok r) (ls : List Int) :
    ∀ (st : St), (∀ l ∈ ls, levelBucket flat l ≠ []) →
      (process_levels gen oracle pageUid flat ls st).2 = none ∧
      (writesOf (process_levels gen oracle pageUid flat ls st).1.events).length =
        (writesOf st.events).length + ls.length := by
  induction ls with
  | nil => intro st _; simp [process_levels]
  | cons l ls ih =>
    intro st h
    obtain ⟨r, hr⟩ := hok st.calls
    have hb : levelBucket flat l ≠ [] := h l (List.mem_cons_self l ls)
    have hspec := process_level_spec gen oracle pageUid l (levelBucket flat l) st r hb hr
    simp only [process_levels, hspec]
    have hls : ∀ l' ∈ ls, levelBucket flat l' ≠ [] :=
      fun l' hl' => h l' (List.mem_cons_of_mem _ hl')
    constructor
    · exact (ih _ hls).1
    · rw [(ih _ hls).2]
      simp [writesOf_append_write]
      omega

/-- On a store that never raises, no iteration of the block loop of
`create_nested_blocks` reports an exception (a failure response is only
logged). -/
theorem cnb_block_exn_none (gen : Nat → String) (oracle : Nat → Except String Resp)
    (hok : ∀ i, ∃ r, oracle i = Except.ok r) (b : Item) (pu : String)
    (created : List String) (pmap : List (Int × String)) (st : GSt) :
    (cnb_block gen oracle b pu created pmap st).exn = none := by
  obtain ⟨r, hr⟩ := hok st.calls
  cases b with
  | mk t lvl h cs =>
    simp only [cnb_block, hr]
    split
    · split
      · rfl
      · rfl
    · rfl

theorem cnb_list_exn_none (gen : Nat → String) (oracle : Nat → Except String Resp)
    (hok : ∀ i, ∃ r, oracle i = Except.ok r) :
    ∀ (l : ItemList) (pu : String) (created : List String)
      (pmap : List (Int × String)) (st : GSt),
      (cnb_list gen oracle l pu created pmap st).exn = none
  | .nil, pu, created, pmap, st => by simp [cnb_list]
  | .cons b rest, pu, created, pmap, st => by
    have hb := cnb_block_exn_none gen oracle hok b pu created pmap st
    rcases hcb : cnb_block gen oracle b pu created pmap st with ⟨c', p', s', e'⟩
    rw [hcb] at hb
    simp only at hb
    subst hb
    simp only [cnb_list, hcb]
    exact cnb_list_exn_none gen oracle hok rest pu c' p' s'

/-! ### Claim theorems -/

/-- C9 (confirmed): flattening is a pure, deterministic function of the input
tree.  The source mutates an enclosing accumulator list; modelled with the
accumulator made explicit, the output of a flattening run is exactly the prior
accumulator followed by a suffix that depends only on the input items and the
parent level, so two runs from an empty accumulator yield identical
`LinearNode` sequences (same texts, resolved depths and heading ranks in the
same pre-order) and no state leaks between calls. -/
theorem flatten_content_pure (l : ItemList) (p : Int) (acc : List LinearNode) :
    flatten_content l p acc = acc ++ flatten_content l p [] :=
  flatten_content_acc l p acc

/-- C7 (confirmed): for a depth bucket whose batch call returns a response,
the identifiers appended to the running `created_uids` are exactly the
store-returned identifiers when the response carries a `created_uids` key, and
exactly the locally generated `level_uids` when the response signals success
without that key; a failure response without the key appends nothing.  Exactly
one of the two sets is appended per bucket. -/
theorem process_level_reconcile_created (gen : Nat → String)
    (oracle : Nat → Except String Resp) (pageUid : String) (level : Int)
    (bucket : List LinearNode) (st : St) (r : Resp)
    (hne : bucket ≠ []) (hr : oracle st.calls = Except.ok r) :
    (process_level gen oracle pageUid level bucket st).1.created =
      st.created ++
        match r.created_uids with
        | some us => us
        | none =>
          if r.success then (build_level_actions gen pageUid st.pmap level bucket st.ctr).uids
          else [] := by
  rw [process_level_spec gen oracle pageUid level bucket st r hne hr]
  rfl

/-- C7 witness: a two-node depth-0 bucket whose response carries the store
identifiers `a1`, `a2`: exactly those are appended. -/
theorem process_level_reconcile_created_witness :
    (process_level gen0 oracleStoreUids "R" 0 [⟨"A", 0, 0⟩, ⟨"B", 0, 0⟩]
        ⟨0, 0, [], [], [(-1, "R")]⟩).1.created =
      [] ++
        match (Resp.mk true (some ["a1", "a2"])).created_uids with
        | some us => us
        | none =>
          if (Resp.mk true (some ["a1", "a2"])).success then
            (build_level_actions gen0 "R" [(-1, "R")] 0 [⟨"A", 0, 0⟩, ⟨"B", 0, 0⟩] 0).uids
          else [] :=
  process_level_reconcile_created gen0 oracleStoreUids "R" 0 [⟨"A", 0, 0⟩, ⟨"B", 0, 0⟩]
    ⟨0, 0, [], [], [(-1, "R")]⟩ (Resp.mk true (some ["a1", "a2"])) (by decide) rfl

/-- C6 counterexample: a two-node depth-0 bucket (A, B) whose store response
carries `storeIdentifiers = [a1, a2]`, followed by a depth-1 node C.  The
engine adopts `a1`, `a2` into `created_uids`, but the next depth is parented
at the locally generated uid `u1` of B — not at `a2` as the claim states. -/
theorem table_entry_store_uids_counterexample :
    (writesOf (create_page gen0 oracleStoreUids (fun _ => "R") "Page" contentABC).2 =
      [[⟨"R", "last", "A", "u0", none⟩, ⟨"R", "last", "B", "u1", none⟩],
       [⟨"u1", "last", "C", "u2", none⟩]]) ∧
    (create_page gen0 oracleStoreUids (fun _ => "R") "Page" contentABC).1.created_uids =
      some ["a1", "a2", "u2"] ∧
    ¬ ("u1" = "a2") := by
  refine ⟨by decide, by decide, by decide⟩

/-- C6 (corrected): after a bucket is processed with any returned response
`r` — including one carrying store identifiers such as `[a1, a2]` — the parent
table entry for that depth is the locally generated uid of the last node of
the bucket, `gen (ctr + (bucket.length - 1))`, independent of `r`; the store
identifiers are adopted only into `created_uids`, never into the table. -/
theorem process_level_table_entry_is_local (gen : Nat → String)
    (oracle : Nat → Except String Resp) (pageUid : String) (level : Int)
    (bucket : List LinearNode) (st : St) (r : Resp)
    (hne : bucket ≠ []) (hr : oracle st.calls = Except.ok r) :
    (process_level gen oracle pageUid level bucket st).1.pmap =
      (level, gen (st.ctr + (bucket.length - 1))) :: st.pmap := by
  rw [process_level_spec gen oracle pageUid level bucket st r hne hr,
      build_level_actions_uids_getLastD gen pageUid st.pmap level bucket st.ctr hne]

/-- C6 witness: the two-node bucket with store response `[a1, a2]`: the table
entry becomes the local uid `u1`. -/
theorem process_level_table_entry_is_local_witness :
    (process_level gen0 oracleStoreUids "R" 0 [⟨"A", 0, 0⟩, ⟨"B", 0, 0⟩]
        ⟨0, 0, [], [], [(-1, "R")]⟩).1.pmap =
      ((0 : Int), gen0 (0 + (([⟨"A", 0, 0⟩, ⟨"B", 0, 0⟩] : List LinearNode).length - 1))) ::
        [(-1, "R")] :=
  process_level_table_entry_is_local gen0 oracleStoreUids "R" 0 [⟨"A", 0, 0⟩, ⟨"B", 0, 0⟩]
    ⟨0, 0, [], [], [(-1, "R")]⟩ (Resp.mk true (some ["a1", "a2"])) (by decide) rfl

/-- C3 counterexample: the outline with nodes at depths 0 and 2 and nothing at
depth 1.  The depth-2 node C is parented at the page root `R`, not at the
depth-0 node A created identifier `u0`: there is no nearest-lower-depth
walk. -/
theorem depth_gap_parents_at_root_counterexample :
    writesOf (create_page gen0 oracleOk (fun _ => "R") "Page" contentGap).2 =
      [[⟨"R", "last", "A", "u0", none⟩], [⟨"R", "last", "C", "u1", none⟩]] ∧
    ¬ ("R" = "u0") := by
  refine ⟨by decide, by decide⟩

/-- C3 (corrected): parent resolution consults only the table entry for
exactly `level - 1` (clamped at the sentinel `-1`): whenever that single entry
is missing, every node of the bucket is parented directly at the page root,
even when entries for lower depths exist in the table.  There is no downward
walk to the nearest lower depth. -/
theorem parent_resolution_no_downward_walk (gen : Nat → String) (pageUid : String)
    (pmap : List (Int × String)) (level : Int) (bucket : List LinearNode) (ctr : Nat)
    (hmiss : List.lookup (clampParentLevel (level - 1)) pmap = none) :
    ((build_level_actions gen pageUid pmap level bucket ctr).batch).all
      (fun a => a.parent == pageUid) = true := by
  induction bucket generalizing ctr with
  | nil => simp [build_level_actions]
  | cons nd rest ih => simp [build_level_actions, hmiss, ih]

/-- C3 witness: a depth-2 bucket resolved against a table that has entries for
depths -1 and 0 but none for depth 1: everything is parented at the root. -/
theorem parent_resolution_no_downward_walk_witness :
    ((build_level_actions gen0 "R" [(-1, "R"), (0, "u0")] 2 [⟨"C", 2, 0⟩] 1).batch).all
      (fun a => a.parent == "R") = true :=
  parent_resolution_no_downward_walk gen0 "R" [(-1, "R"), (0, "u0")] 2 [⟨"C", 2, 0⟩] 1
    (by decide)

/-- C1 counterexample: outline A at depth 0, B at depth 1, D at depth 2, with
a store whose depth-1 batch reports failure.  Contrary to the claim,
`create_page` still issues the depth-2 request (three write calls in total)
and returns `success = true`; the failed bucket contributes nothing to
`created_uids` while the depth-2 bucket does. -/
theorem create_page_continues_after_failed_batch_counterexample :
    (create_page gen0 oracleFailAt1 (fun _ => "R") "Page" contentABD).1.success = true ∧
    (writesOf (create_page gen0 oracleFailAt1 (fun _ => "R") "Page" contentABD).2).length = 3 ∧
    (create_page gen0 oracleFailAt1 (fun _ => "R") "Page" contentABD).1.created_uids =
      some ["u0", "u2"] := by
  refine ⟨by decide, by decide, by decide⟩

/-- C1 (amended): a batch response that reports failure does not stop the
driver: on any store that returns a response for every call (never raises),
`create_page` issues exactly one creation request per depth bucket —
failure responses included — and returns `success = true`; each failed bucket
merely contributes no identifiers.  Processing stops early only when a call
raises an exception. -/
theorem create_page_failure_response_not_fatal
    (gen : Nat → String) (oracle : Nat → Except String Resp) (fp : String → String)
    (title : String) (content : ItemList)
    (hok : ∀ i, ∃ r, oracle i = Except.ok r)
    (htitle : ¬ title = "")
    (hval : validate_content content = none)
    (hne : content.isEmpty = false) :
    (create_page gen oracle fp title content).1.success = true ∧
    (writesOf (create_page gen oracle fp title content).2).length =
      (levelKeys (sortByLevel (flatten_content content (-1) []))).length := by
  have h := process_levels_ok gen oracle (fp title)
      (sortByLevel (flatten_content content (-1) [])) hok
      (levelKeys (sortByLevel (flatten_content content (-1) [])))
      { ctr := 0, calls := 0, events := [Event.page title], created := [],
        pmap := [(-1, fp title)] }
      (levelKeys_bucket_ne_nil _)
  rcases hpl : process_levels gen oracle (fp title)
      (sortByLevel (flatten_content content (-1) []))
      (levelKeys (sortByLevel (flatten_content content (-1) [])))
      { ctr := 0, calls := 0, events := [Event.page title], created := [],
        pmap := [(-1, fp title)] } with ⟨stf, e⟩
  rw [hpl] at h
  obtain ⟨h1, h2⟩ := h
  simp only at h1
  subst h1
  simp only [create_page, htitle, if_false, hne, hval, hpl]
  constructor
  · rfl
  · simpa [writesOf] using h2

/-- C1 witness: the amended theorem applied to the counterexample store. -/
theorem create_page_failure_response_not_fatal_witness :
    (create_page gen0 oracleFailAt1 (fun _ => "R") "Page" contentABD).1.success = true ∧
    (writesOf (create_page gen0 oracleFailAt1 (fun _ => "R") "Page" contentABD).2).length =
      (levelKeys (sortByLevel (flatten_content contentABD (-1) []))).length :=
  create_page_failure_response_not_fatal gen0 oracleFailAt1 (fun _ => "R") "Page" contentABD
    (fun i => by unfold oracleFailAt1; split <;> exact ⟨_, rfl⟩)
    (by decide) (by decide) (by decide)

/-- C2 (the end-to-end scenario): `create_page` reproduces it exactly — depth
0 batch A under ROOT1, depth 1 batch B, C under the A uid, depth 2 batch D
under the C uid — but `import_markdown` does not: its parent table is never
updated for any level of the parsed content (the conditional update at
`content.py` line 743 requires the level to already be a key, and only the
sentinel -1 is), so B, C and D are all parented at ROOT1, D included. -/
theorem scenario_abcd_create_page_vs_import_markdown :
    (create_page gen0 oracleOk (fun _ => "ROOT1") "Page" contentABCD).2 =
      [.page "Page",
       .write [⟨"ROOT1", "last", "A", "u0", none⟩],
       .write [⟨"u0", "last", "B", "u1", none⟩, ⟨"u0", "last", "C", "u2", none⟩],
       .write [⟨"u2", "last", "D", "u3", none⟩]] ∧
    (import_markdown gen0 oracleOk "PG" "ROOT1" "last" parsedABCD).2 =
      [.write [⟨"ROOT1", "last", "A", "u0", none⟩],
       .write [⟨"ROOT1", "last", "B", "u1", none⟩, ⟨"ROOT1", "last", "C", "u2", none⟩],
       .write [⟨"ROOT1", "last", "D", "u3", none⟩]] := by
  refine ⟨by decide, by decide⟩

/-- C4 counterexample: A at depth 0, B at depth 1, with a store whose second
call raises.  The depth-0 identifier `u0` was created (both calls were issued
and the first succeeded), yet the returned dict of `create_page` carries no
`created_uids` key at all: partial progress is dropped. -/
theorem create_page_exception_drops_partial_counterexample :
    (create_page gen0 oracleRaiseAt1 (fun _ => "R") "Page" contentAB).1 =
      { success := false, error := some "Transaction failed" } ∧
    (writesOf (create_page gen0 oracleRaiseAt1 (fun _ => "R") "Page" contentAB).2).length = 2 := by
  refine ⟨by decide, by decide⟩

/-- C4 (amended): only `create_nested_blocks` preserves partial progress:
whatever the store does — including raising mid-way — its result always
carries `created_uids = some l` where `l` is exactly the list accumulated by
its block loop before the failure; `create_page` (and the other batch entry
points, whose handlers are identical) returns an error dict without any
`created_uids` key when a call raises. -/
theorem create_nested_blocks_result_keeps_uid_list (gen : Nat → String)
    (oracle : Nat → Except String Resp) (parentUid : String)
    (blocks : ItemList) (st : GSt) (hne : blocks.isEmpty = false) :
    (create_nested_blocks gen oracle parentUid blocks st).1.created_uids =
      some ((cnb_list gen oracle blocks parentUid [] [(-1, parentUid)] st).created) := by
  simp only [create_nested_blocks, hne]
  rcases h : cnb_list gen oracle blocks parentUid [] [(-1, parentUid)] st with ⟨c, p, s, e⟩
  cases e <;> simp [h]

/-- C4 witness: with the raising store, the nested-block result still reports
the identifier created before the exception, while `success` is false. -/
theorem create_nested_blocks_result_keeps_uid_list_witness :
    ((create_nested_blocks gen0 oracleRaiseAt1 "R" contentAB ⟨0, 0, []⟩).1.created_uids =
      some ((cnb_list gen0 oracleRaiseAt1 contentAB "R" [] [(-1, "R")] ⟨0, 0, []⟩).created)) ∧
    (cnb_list gen0 oracleRaiseAt1 contentAB "R" [] [(-1, "R")] ⟨0, 0, []⟩).created = ["u0"] ∧
    (create_nested_blocks gen0 oracleRaiseAt1 "R" contentAB ⟨0, 0, []⟩).1.success = false :=
  ⟨create_nested_blocks_result_keeps_uid_list gen0 oracleRaiseAt1 "R" contentAB ⟨0, 0, []⟩
      (by decide),
   by decide, by decide⟩

/-- C5 counterexample: an outline whose only node has empty text.  Far from
failing with a validation error before any store call, `create_page` accepts
it and issues a block-creation request for the empty-text node, returning
success. -/
theorem create_page_empty_text_not_rejected_counterexample :
    (create_page gen0 oracleOk (fun _ => "R") "Page" contentEmptyText).1.success = true ∧
    (writesOf (create_page gen0 oracleOk (fun _ => "R") "Page" contentEmptyText).2).length = 1 := by
  refine ⟨by decide, by decide⟩

/-- C5 (amended): `create_page` validation rejects a negative (or, in the
untyped source, non-integer) depth and returns a failure result before any
block-creation request — but empty node text passes validation, an empty
outline skips validation entirely, and the page find-or-create store call has
already been issued by the time validation runs. -/
theorem create_page_invalid_content_after_page_call (gen : Nat → String)
    (oracle : Nat → Except String Resp) (fp : String → String)
    (title : String) (content : ItemList) (e : String)
    (htitle : ¬ title = "") (hne : content.isEmpty = false)
    (hval : validate_content content = some e) :
    (create_page gen oracle fp title content).1.success = false ∧
    (create_page gen oracle fp title content).2 = [Event.page title] := by
  simp [create_page, htitle, hne, hval]

/-- C5 witness: a negative-level item is rejected, after the page call and
with no write calls. -/
theorem create_page_invalid_content_after_page_call_witness :
    (create_page gen0 oracleOk (fun _ => "R") "Page" contentNegLevel).1.success = false ∧
    (create_page gen0 oracleOk (fun _ => "R") "Page" contentNegLevel).2 = [Event.page "Page"] :=
  create_page_invalid_content_after_page_call gen0 oracleOk (fun _ => "R") "Page"
    contentNegLevel "level must be non-negative" (by decide) (by decide) (by decide)

/-- C8 counterexample: `create_outline` on the empty outline returns
`success = false` (with an error message), not the claimed no-op success —
though indeed without store calls. -/
theorem create_outline_empty_rejected_counterexample :
    (create_outline gen0 oracleOk "P" "P" []).1.success = false ∧
    (create_outline gen0 oracleOk "P" "P" []).2 = [] := by
  refine ⟨by decide, by decide⟩

/-- C8 (amended): the no-op empty-input success holds only for
`create_nested_blocks` (success with an empty uid list, state untouched);
`create_outline` rejects an empty outline with a failure result (still no
store calls); `create_page` with empty content returns success but without
any `created_uids` key, after the page find-or-create call. -/
theorem empty_input_behavior (gen : Nat → String) (oracle : Nat → Except String Resp)
    (fp : String → String) (parentUid targetPage : String) (st : GSt) :
    create_nested_blocks gen oracle parentUid .nil st =
      ({ success := true, created_uids := some [] }, st) ∧
    create_outline gen oracle targetPage parentUid [] =
      ({ success := false, error := some "Outline cannot be empty" }, []) ∧
    create_page gen oracle fp "T" .nil =
      ({ success := true, uid := some (fp "T") }, [Event.page "T"]) := by
  refine ⟨rfl, rfl, rfl⟩

/-- C10 (confirmed): `create_nested_blocks` returns `success = true` whenever
the store answers every call with a response — even failure responses: a
failed block is only logged, its uid is not recorded and its subtree is never
attempted.  Concretely, with X (child Y) and Z at the top level and the X call
failing: only two write calls are issued (X and Z, never Y), `created_uids`
is exactly the Z uid, and the overall result is still a success.  Only a
raised exception produces `success = false`. -/
theorem create_nested_blocks_block_failure_semantics :
    (∀ (gen : Nat → String) (oracle : Nat → Except String Resp) (pu : String)
        (blocks : ItemList) (st : GSt), (∀ i, ∃ r, oracle i = Except.ok r) →
        (create_nested_blocks gen oracle pu blocks st).1.success = true) ∧
    create_nested_blocks gen0 oracleFailAt0 "R" blocksXYZ ⟨0, 0, []⟩ =
      ({ success := true, created_uids := some ["u1"] },
       ⟨2, 2, [.write [⟨"R", "last", "X", "u0", none⟩],
               .write [⟨"R", "last", "Z", "u1", none⟩]]⟩) := by
  constructor
  · intro gen oracle pu blocks st hok
    cases blocks with
    | nil => rfl
    | cons b rest =>
      have hexn := cnb_list_exn_none gen oracle hok (.cons b rest) pu [] [(-1, pu)] st
      rcases h : cnb_list gen oracle (.cons b rest) pu [] [(-1, pu)] st with ⟨c, p, s, e⟩
      rw [h] at hexn
      simp only at hexn
      subst hexn
      simp [create_nested_blocks, ItemList.isEmpty, h]
  · decide

/-- C10 witness: the universal half applied to a store that always succeeds. -/
theorem create_nested_blocks_block_failure_semantics_witness :
    (create_nested_blocks gen0 oracleOk "R" blocksXYZ ⟨0, 0, []⟩).1.success = true :=
  create_nested_blocks_block_failure_semantics.1 gen0 oracleOk "R" blocksXYZ ⟨0, 0, []⟩
    (fun _ => ⟨{ success := true }, rfl⟩)

end Roam
